import Mathlib

/-!
Shallow embedding of `src/streamlit_app.py` (Canave.ia): a Streamlit chat
assistant wired to an OpenAI tool-calling loop and two read-only SQL
accessor stubs.

Modelling conventions:
* Python strings are Lean `String`; `str.strip`/`str.lower`/`str.startswith`
  become the executable `pyStrip`/`pyToLower`/`pyStartsWith` defined below.
* Python values flowing through tool arguments and database rows are `PyVal`
  (floats are modelled as exact rationals; the only float literal in the
  program is `0.0`).
* Raising code returns `Except PyErr α`; the constructors mirror the Python
  exception classes that can occur.
* External effects are oracles passed explicitly: `Db` for pyodbc/pandas,
  `Oracle` for the two OpenAI chat-completion calls, `Config` for
  `st.secrets` and `os.environ`.
-/

/-- A Python value as it appears in tool arguments and database rows. -/
inductive PyVal where
  | pnone
  | pint (n : Int)
  | pfloat (q : Rat)
  | pstr (s : String)
  deriving DecidableEq, Repr

/-- A database row as produced by `DataFrame.to_dict(orient="records")`:
an ordered mapping from column names to values. -/
abbrev Row := List (String × PyVal)

/-- The Python exceptions the embedded code can raise.  `dbError` stands for
any exception escaping `pyodbc.connect` / `pd.read_sql`. -/
inductive PyErr where
  | valueError (msg : String)
  | runtimeError (msg : String)
  | typeError (msg : String)
  | dbError (msg : String)
  deriving DecidableEq, Repr

/-- `str(e)` on an exception: its message. -/
def str_of_err : PyErr → String
  | .valueError m => m
  | .runtimeError m => m
  | .typeError m => m
  | .dbError m => m

/-- The configuration environment: `st.secrets` (absent when the attribute
is missing from the streamlit module) and `os.environ`. -/
structure Config where
  secretsStore : Option (String → Option String)
  env : String → Option String

/-- `get_secret` (lines 19-23): `st.secrets` first, then `os.getenv(key, default)`. -/
def get_secret (cfg : Config) (key : String) (dflt : String) : String :=
  match cfg.secretsStore with
  | some store =>
    match store key with
    | some v => v
    | none => ((cfg.env key).getD dflt)
  | none => ((cfg.env key).getD dflt)

/-- Module-level constant `OPENAI_API_KEY` (line 25). -/
def OPENAI_API_KEY (cfg : Config) : String := get_secret cfg "OPENAI_API_KEY" ""

/-- Module-level constant `OPENAI_MODEL` (line 26). -/
def OPENAI_MODEL (cfg : Config) : String := get_secret cfg "OPENAI_MODEL" "gpt-4.1-mini"

/-- Module-level constant `SQL_SERVER` (line 28). -/
def SQL_SERVER (cfg : Config) : String := get_secret cfg "SQL_SERVER" ""

/-- Module-level constant `SQL_DATABASE` (line 29). -/
def SQL_DATABASE (cfg : Config) : String := get_secret cfg "SQL_DATABASE" ""

/-- Module-level constant `SQL_USER` (line 30). -/
def SQL_USER (cfg : Config) : String := get_secret cfg "SQL_USER" ""

/-- Module-level constant `SQL_PASSWORD` (line 31). -/
def SQL_PASSWORD (cfg : Config) : String := get_secret cfg "SQL_PASSWORD" ""

/-- Module-level constant `SQL_DRIVER` (line 32). -/
def SQL_DRIVER (cfg : Config) : String :=
  get_secret cfg "SQL_DRIVER" "ODBC Driver 18 for SQL Server"

/-- The database side effects: the outcome of `pyodbc.connect` and of
`pd.read_sql` for a given query and parameter list. -/
structure Db where
  connectResult : Except String Unit
  readSql : String → List PyVal → Except String (List Row)

/-- The ODBC connection string built in `get_conn` (lines 45-53). -/
def conn_str (cfg : Config) : String :=
  "DRIVER=\x7b" ++ SQL_DRIVER cfg ++ "\x7d;" ++
  "SERVER=" ++ SQL_SERVER cfg ++ ";" ++
  "DATABASE=" ++ SQL_DATABASE cfg ++ ";" ++
  "UID=" ++ SQL_USER cfg ++ ";" ++
  "PWD=" ++ SQL_PASSWORD cfg ++ ";" ++
  "Encrypt=yes;TrustServerCertificate=yes;"

/-- The message of the missing-credentials `RuntimeError` (line 43). -/
def creds_err_msg : String :=
  "Faltan credenciales SQL en secrets/env (SQL_SERVER, SQL_DATABASE, SQL_USER, SQL_PASSWORD)."

/-- `get_conn` (lines 40-54): raise `RuntimeError` when any credential is
falsy (the empty string), otherwise attempt `pyodbc.connect`. -/
def get_conn (cfg : Config) (db : Db) : Except PyErr Unit :=
  if SQL_SERVER cfg = "" ∨ SQL_DATABASE cfg = "" ∨ SQL_USER cfg = "" ∨ SQL_PASSWORD cfg = "" then
    .error (.runtimeError creds_err_msg)
  else
    match db.connectResult with
    | .ok u => .ok u
    | .error m => .error (.dbError m)

/-- Python whitespace as stripped by `str.strip()`. -/
def isPySpace (c : Char) : Bool :=
  c == ' ' || c == '\t' || c == '\n' || c == '\r' || c == '\x0b' || c == '\x0c'

/-- `str.strip()`: remove leading and trailing whitespace. -/
def pyStrip (s : String) : String :=
  String.mk (((s.toList.dropWhile isPySpace).reverse.dropWhile isPySpace).reverse)

/-- `str.lower()` (the program only probes ASCII prefixes). -/
def pyToLower (s : String) : String :=
  String.mk (s.toList.map Char.toLower)

/-- `str.startswith(pre)`. -/
def pyStartsWith (s pre : String) : Bool :=
  pre.toList.isPrefixOf s.toList

/-- The message of the guardrail `ValueError` (line 60). -/
def guard_err_msg : String :=
  "Solo se permiten consultas SELECT o EXEC de SPs controlados."

/-- `run_query` (lines 56-62): prefix guardrail on the stripped, lowercased
query text, then `get_conn` and `pd.read_sql`. -/
def run_query (cfg : Config) (db : Db) (sql : String) (params : Option (List PyVal)) :
    Except PyErr (List Row) :=
  let sql_strip := pyToLower (pyStrip sql)
  if ¬ pyStartsWith sql_strip "select" ∧ ¬ pyStartsWith sql_strip "exec" then
    .error (.valueError guard_err_msg)
  else
    match get_conn cfg db with
    | .error e => .error e
    | .ok _ =>
      match db.readSql sql (params.getD []) with
      | .ok rows => .ok rows
      | .error m => .error (.dbError m)

/-- The query text of `ventas_ayer` (lines 73-79), a triple-quoted literal. -/
def ventas_ayer_sql : String :=
  "\n    SELECT\n        CAST(DATEADD(day, -1, GETDATE()) AS date) AS Fecha,\n        ? AS Sucursal,\n        0.0 AS VentaNeta,\n        0 AS Tickets\n    "

/-- `ventas_ayer` (lines 68-82): run the placeholder query with the branch
name as the single parameter and return the records. -/
def ventas_ayer (cfg : Config) (db : Db) (sucursal : PyVal) : Except PyErr (List Row) :=
  run_query cfg db ventas_ayer_sql (some [sucursal])

/-- One record of the placeholder frame built in `top_productos_mes`
(lines 89-97).  `VentaNeta` is the float literal `0.0`, modelled exactly. -/
structure ProdRow where
  Anio : Int
  Mes : Int
  Sucursal : String
  ArticuloId : String
  Articulo : String
  Unidades : Int
  VentaNeta : Rat
  deriving DecidableEq, Repr

/-- Python's `x or dflt` on an optional string: `None` and `""` are falsy. -/
def pyOr (x : Option String) (dflt : String) : String :=
  match x with
  | none => dflt
  | some s => if s = "" then dflt else s

/-- `DataFrame.head(n)`, i.e. `iloc[:n]`: the first `n` rows when `n ≥ 0`,
and all rows but the last `|n|` when `n < 0`. -/
def pdHead {α : Type} (xs : List α) (n : Int) : List α :=
  if 0 ≤ n then xs.take n.toNat else xs.take (xs.length - (-n).toNat)

/-- `top_productos_mes` (lines 84-98): a one-row placeholder frame cut by
`head(top_n)` and returned as records.  Typed as annotated in the source
(`anio: int, mes: int, top_n: int, sucursal: str | None`). -/
def top_productos_mes (anio mes top_n : Int) (sucursal : Option String) : List ProdRow :=
  pdHead
    [{ Anio := anio
       Mes := mes
       Sucursal := pyOr sucursal "TODAS"
       ArticuloId := ""
       Articulo := "Pendiente de conectar a datos reales"
       Unidades := 0
       VentaNeta := 0 }]
    top_n

/-- What a tool returns to the chat loop: the records of `ventas_ayer`, the
records of `top_productos_mes`, or the `\x7b"error": ...\x7d` payload for an
unregistered name (line 140). -/
inductive ToolResult where
  | ventasRows (rows : List Row)
  | prodRows (rows : List ProdRow)
  | errDict (msg : String)
  deriving DecidableEq, Repr

/-- A parsed tool-argument dict (`json.loads(tc.function.arguments)`). -/
abbrev ArgsDict := List (String × PyVal)

/-- Keyword binding of `ventas_ayer(**args)`: the one required parameter. -/
def bind_ventas_ayer (args : ArgsDict) : Except PyErr PyVal :=
  match args.lookup "sucursal" with
  | none =>
    .error (.typeError "ventas_ayer() missing 1 required positional argument: 'sucursal'")
  | some v =>
    if args.all (fun p => decide (p.1 ∈ (["sucursal"] : List String))) then .ok v
    else .error (.typeError "ventas_ayer() got an unexpected keyword argument")

/-- Keyword binding of `top_productos_mes(**args)`: `anio`, `mes`, `top_n`
required, `sucursal` optional (defaulting to `None`), no other keys.
Values are required to have the annotated types; in Python a wrongly typed
`top_n` raises inside `head` instead, which this model folds into the same
`TypeError` outcome. -/
def bind_top_productos_mes (args : ArgsDict) :
    Except PyErr (Int × Int × Int × Option String) :=
  match args.lookup "anio", args.lookup "mes", args.lookup "top_n" with
  | some (.pint anio), some (.pint mes), some (.pint top_n) =>
    if args.all (fun p => decide (p.1 ∈ (["anio", "mes", "top_n", "sucursal"] : List String))) then
      match args.lookup "sucursal" with
      | none => .ok (anio, mes, top_n, none)
      | some .pnone => .ok (anio, mes, top_n, none)
      | some (.pstr s) => .ok (anio, mes, top_n, some s)
      | some _ => .error (.typeError "top_productos_mes() invalid argument type")
    else .error (.typeError "top_productos_mes() got an unexpected keyword argument")
  | _, _, _ =>
    .error (.typeError "top_productos_mes() missing required arguments")

/-- `call_tool` (lines 135-140): dispatch on the tool name; unregistered
names return the error payload instead of raising. -/
def call_tool (cfg : Config) (db : Db) (name : String) (args : ArgsDict) :
    Except PyErr ToolResult :=
  if name = "ventas_ayer" then
    match bind_ventas_ayer args with
    | .error e => .error e
    | .ok v =>
      match ventas_ayer cfg db v with
      | .ok rows => .ok (.ventasRows rows)
      | .error e => .error e
  else if name = "top_productos_mes" then
    match bind_top_productos_mes args with
    | .error e => .error e
    | .ok (anio, mes, top_n, sucursal) => .ok (.prodRows (top_productos_mes anio mes top_n sucursal))
  else
    .ok (.errDict ("Tool no permitida: " ++ name))

/-- A JSON value, the codomain of `json.dumps` serialization in the chat loop. -/
inductive JVal where
  | jnull
  | jint (n : Int)
  | jrat (q : Rat)
  | jstr (s : String)
  | jarr (xs : List JVal)
  | jobj (kvs : List (String × JVal))

/-- JSON string escaping of one character (the cases arising here). -/
def jsonEscapeChar (c : Char) : String :=
  if c = '\\' then "\\\\"
  else if c = '"' then "\\\""
  else if c = '\n' then "\\n"
  else if c = '\t' then "\\t"
  else if c = '\r' then "\\r"
  else String.singleton c

/-- JSON string escaping (`ensure_ascii=False`, so non-ASCII text passes through). -/
def jsonEscape (s : String) : String :=
  String.join (s.toList.map jsonEscapeChar)

/-- The decimal rendering of a Python float that holds an exact value. -/
def floatRepr (q : Rat) : String :=
  if q.den = 1 then toString q.num ++ ".0" else toString q

mutual

/-- `json.dumps` with default separators and `ensure_ascii=False`. -/
def dumps : JVal → String
  | .jnull => "null"
  | .jint n => toString n
  | .jrat q => floatRepr q
  | .jstr s => "\"" ++ jsonEscape s ++ "\""
  | .jarr xs => "[" ++ dumpsArr xs ++ "]"
  | .jobj kvs => "\x7b" ++ dumpsObj kvs ++ "\x7d"

/-- Comma-joined serialization of array elements. -/
def dumpsArr : List JVal → String
  | [] => ""
  | [x] => dumps x
  | x :: xs => dumps x ++ ", " ++ dumpsArr xs

/-- Comma-joined serialization of object entries. -/
def dumpsObj : List (String × JVal) → String
  | [] => ""
  | [(k, v)] => "\"" ++ jsonEscape k ++ "\": " ++ dumps v
  | (k, v) :: kvs => "\"" ++ jsonEscape k ++ "\": " ++ dumps v ++ ", " ++ dumpsObj kvs

end

/-- A `PyVal` as a JSON value. -/
def pyValToJ : PyVal → JVal
  | .pnone => .jnull
  | .pint n => .jint n
  | .pfloat q => .jrat q
  | .pstr s => .jstr s

/-- A database record as a JSON object. -/
def rowToJ (r : Row) : JVal :=
  .jobj (r.map (fun p => (p.1, pyValToJ p.2)))

/-- A `top_productos_mes` record as a JSON object, fields in frame order. -/
def prodRowToJ (r : ProdRow) : JVal :=
  .jobj [("Anio", .jint r.Anio), ("Mes", .jint r.Mes), ("Sucursal", .jstr r.Sucursal),
         ("ArticuloId", .jstr r.ArticuloId), ("Articulo", .jstr r.Articulo),
         ("Unidades", .jint r.Unidades), ("VentaNeta", .jrat r.VentaNeta)]

/-- The value handed to `json.dumps` for a successful tool result. -/
def resultToJ : ToolResult → JVal
  | .ventasRows rows => .jarr (rows.map rowToJ)
  | .prodRows rows => .jarr (rows.map prodRowToJ)
  | .errDict msg => .jobj [("error", .jstr msg)]

/-- One entry of `st.session_state.messages`. -/
structure Message where
  role : String
  content : String
  tool_call_id : Option String
  deriving DecidableEq, Repr

/-- A model-requested tool call, its JSON arguments already parsed. -/
structure ToolCall where
  id : String
  name : String
  args : ArgsDict
  deriving DecidableEq, Repr

/-- The tool-role message appended for one tool call (lines 188-200):
`call_tool` inside `try`, any exception replaced by `\x7b"error": str(e)\x7d`,
then the JSON dump of the data. -/
def tool_msg (cfg : Config) (db : Db) (tc : ToolCall) : Message :=
  let data : JVal :=
    match call_tool cfg db tc.name tc.args with
    | .ok r => resultToJ r
    | .error e => .jobj [("error", .jstr (str_of_err e))]
  { role := "tool", content := dumps data, tool_call_id := some tc.id }

/-- The `for tc in msg.tool_calls` loop (lines 188-200): append one tool
message per requested call, in order. -/
def handle_tool_calls (cfg : Config) (db : Db) (msgs : List Message)
    (tcs : List ToolCall) : List Message :=
  tcs.foldl (fun acc tc => acc ++ [tool_msg cfg db tc]) msgs

/-- The message object of one chat completion: its text content and the
tool calls it requests (`None`/empty modelled as `[]`). -/
structure LLMMsg where
  content : Option String
  tool_calls : List ToolCall

/-- The LLM endpoint: the outcomes of the first (tool-choice) and second
(redaction) `chat.completions.create` calls as functions of the history. -/
structure Oracle where
  complete1 : List Message → LLMMsg
  complete2 : List Message → LLMMsg

/-- The system prompt seeded at lines 146-155. -/
def system_prompt : String :=
  "Eres un asistente interno para consultas operativas. No inventes cifras. Si necesitas datos, usa tools. Si el usuario pide algo fuera de las tools, explica qué dato falta."

/-- The initial conversation log (lines 145-155). -/
def initMessages : List Message :=
  [{ role := "system", content := system_prompt, tool_call_id := none }]

/-- The fixed reply appended when no API key is configured (line 171). -/
def not_configured_msg : String :=
  "Falta configurar OPENAI_API_KEY. En cuanto lo configures, habilito las respuestas IA."

/-- One submitted prompt's pass through the handler (lines 163-217): append
the user message; with no API key append the fixed reply and rerun (the rest
of the script does not execute); otherwise one or two LLM calls, the tool
loop when tools were requested, and the final assistant message.  Returns
the new log and the number of LLM endpoint calls made. -/
def chatStep (cfg : Config) (db : Db) (oracle : Oracle) (prompt : String)
    (msgs : List Message) : List Message × Nat :=
  let msgs1 := msgs ++ [{ role := "user", content := prompt, tool_call_id := none }]
  if OPENAI_API_KEY cfg = "" then
    (msgs1 ++ [{ role := "assistant", content := not_configured_msg, tool_call_id := none }], 0)
  else
    let m := oracle.complete1 msgs1
    match m.tool_calls with
    | [] =>
      (msgs1 ++ [{ role := "assistant", content := m.content.getD "", tool_call_id := none }], 1)
    | tc :: tcs =>
      let msgs2 := handle_tool_calls cfg db msgs1 (tc :: tcs)
      let m2 := oracle.complete2 msgs2
      (msgs2 ++ [{ role := "assistant", content := (m2.content).getD "", tool_call_id := none }], 2)

/-! ### Test fixtures and helper lemmas -/

/-- A configuration with no secrets attribute and an empty environment. -/
def cfg0 : Config := { secretsStore := none, env := fun _ => none }

/-- A database oracle that connects and returns no rows. -/
def db0 : Db := { connectResult := .ok (), readSql := fun _ _ => .ok [] }

/-- An LLM oracle that requests no tools and answers nothing. -/
def oracle0 : Oracle :=
  { complete1 := fun _ => { content := some "hola", tool_calls := [] }
    complete2 := fun _ => { content := some "hola", tool_calls := [] } }

/-- Every error escaping `get_conn` is the credentials `RuntimeError` or a
connection failure; in particular never the guardrail `ValueError`. -/
lemma get_conn_error_shape (cfg : Config) (db : Db) (e : PyErr)
    (h : get_conn cfg db = .error e) :
    e = .runtimeError creds_err_msg ∨ ∃ m, e = .dbError m := by
  unfold get_conn at h
  split at h
  · exact Or.inl (by injection h with h; exact h.symm)
  · split at h
    · exact absurd h (by simp)
    · exact Or.inr ⟨_, by injection h with h; exact h.symm⟩

/-- The tool loop appends exactly one tool message per requested call. -/
lemma handle_tool_calls_eq (cfg : Config) (db : Db) (msgs : List Message)
    (tcs : List ToolCall) :
    handle_tool_calls cfg db msgs tcs = msgs ++ tcs.map (tool_msg cfg db) := by
  induction tcs generalizing msgs with
  | nil => simp [handle_tool_calls]
  | cons tc tcs ih =>
    unfold handle_tool_calls at ih ⊢
    rw [List.foldl_cons, ih (msgs ++ [tool_msg cfg db tc])]
    simp

/-- Tool-loop messages always carry the `tool` role. -/
lemma tool_msg_role (cfg : Config) (db : Db) (tc : ToolCall) :
    (tool_msg cfg db tc).role = "tool" := rfl

/-- `get_secret` falls back to the default when the key is in neither the
secrets store nor the environment. -/
lemma get_secret_fallback (cfg : Config) (key dflt : String)
    (h : cfg.secretsStore = none ∨ ∃ store, cfg.secretsStore = some store ∧ store key = none)
    (henv : cfg.env key = none) : get_secret cfg key dflt = dflt := by
  rcases h with h | ⟨store, h1, h2⟩
  · simp [get_secret, h, henv]
  · simp [get_secret, h1, h2, henv]

/-- Keyword binding of `ventas_ayer` fails with a `TypeError` when the
required key is missing or an unknown key is present. -/
lemma bind_ventas_bad_args (args : ArgsDict)
    (h : args.lookup "sucursal" = none ∨ ∃ p ∈ args, p.1 ≠ "sucursal") :
    ∃ m, bind_ventas_ayer args = .error (.typeError m) := by
  unfold bind_ventas_ayer
  cases hl : args.lookup "sucursal" with
  | none => exact ⟨_, rfl⟩
  | some v =>
    rcases h with h | ⟨p, hp, hp1⟩
    · exact absurd (hl ▸ h) (by simp)
    · cases hall : args.all (fun p => decide (p.1 ∈ (["sucursal"] : List String))) with
      | false => simp [hall]
      | true =>
        exfalso
        rw [List.all_eq_true] at hall
        have := hall p hp
        simp at this
        exact hp1 this
  

/-- Keyword binding of `top_productos_mes` fails with a `TypeError` when a
required key is missing or an unknown key is present. -/
lemma bind_top_bad_args (args : ArgsDict)
    (h : args.lookup "anio" = none ∨ args.lookup "mes" = none ∨ args.lookup "top_n" = none ∨
      ∃ p ∈ args, p.1 ∉ (["anio", "mes", "top_n", "sucursal"] : List String)) :
    ∃ m, bind_top_productos_mes args = .error (.typeError m) := by
  unfold bind_top_productos_mes
  split
  · rename_i anio mes top_n ha hm ht
    rcases h with h | h | h | ⟨p, hp, hnp⟩
    · rw [ha] at h; exact absurd h (by simp)
    · rw [hm] at h; exact absurd h (by simp)
    · rw [ht] at h; exact absurd h (by simp)
    · cases hall : args.all
          (fun p => decide (p.1 ∈ (["anio", "mes", "top_n", "sucursal"] : List String))) with
      | false => simp [hall]
      | true =>
        exfalso
        rw [List.all_eq_true] at hall
        have := hall p hp
        simp at this
        exact hnp (by simpa using this)
  · exact ⟨_, rfl⟩

/-! ### Claims -/

/-- C1: `run_query` raises the validation `ValueError` — a constant outcome
computed before any database access — exactly when the stripped, lowercased
query text starts with neither `"select"` nor `"exec"`; any query whose
stripped lowercase form begins with `"select"` or `"exec"` passes the
guardrail, i.e. can never produce the validation error. -/
theorem run_query_guardrail (cfg : Config) (db : Db) (sql : String)
    (params : Option (List PyVal)) :
    (¬ pyStartsWith (pyToLower (pyStrip sql)) "select" ∧
        ¬ pyStartsWith (pyToLower (pyStrip sql)) "exec" →
      run_query cfg db sql params = .error (.valueError guard_err_msg)) ∧
    (pyStartsWith (pyToLower (pyStrip sql)) "select" ∨
        pyStartsWith (pyToLower (pyStrip sql)) "exec" →
      ∀ m, run_query cfg db sql params ≠ .error (.valueError m)) := by
  constructor
  · intro h
    unfold run_query
    rw [if_pos h]
  · intro h m
    unfold run_query
    rw [if_neg (by tauto)]
    cases hget : get_conn cfg db with
    | error e =>
      rcases get_conn_error_shape cfg db e hget with he | ⟨m2, he⟩ <;> simp [he]
    | ok u =>
      cases hr : db.readSql sql (params.getD []) <;> simp [hr]

/-- C1 witness: a `DROP` statement is rejected with the validation error,
and a `SELECT` statement never produces it. -/
theorem run_query_guardrail_witness :
    run_query cfg0 db0 "DROP TABLE Ventas" none = .error (.valueError guard_err_msg) ∧
    ∀ m, run_query cfg0 db0 "  SELECT 1" none ≠ .error (.valueError m) :=
  ⟨(run_query_guardrail cfg0 db0 "DROP TABLE Ventas" none).1 (by decide),
   (run_query_guardrail cfg0 db0 "  SELECT 1" none).2 (by decide)⟩

/-- C2 counterexample: at `top_n = -1` the placeholder frame is cut by
`head(-1)` to zero rows, and a length of `0` is not at most `-1`, so the
claim fails for negative `top_n`. -/
theorem top_productos_mes_neg_top_n :
    ¬ (((top_productos_mes 2026 1 (-1) none).length : Int) ≤ -1) := by decide

/-- C2 (amended): for every `top_n ≥ 0`, the list returned by
`top_productos_mes` has length at most `top_n`. -/
theorem top_productos_mes_len_le (anio mes top_n : Int) (sucursal : Option String)
    (h : 0 ≤ top_n) :
    ((top_productos_mes anio mes top_n sucursal).length : Int) ≤ top_n := by
  unfold top_productos_mes pdHead
  rw [if_pos h]
  simp [List.length_take]
  omega

/-- C2 witness: with `top_n = 3` the returned list has at most 3 rows. -/
theorem top_productos_mes_len_le_witness :
    ((top_productos_mes 2026 1 3 none).length : Int) ≤ 3 :=
  top_productos_mes_len_le 2026 1 3 none (by decide)

/-- C9: for `top_n ≥ 1`, `top_productos_mes` returns exactly one record with
`Unidades = 0`, `VentaNeta = 0.0`, `Anio = anio`, `Mes = mes`, and `Sucursal`
equal to the given branch when it is a non-empty string and `"TODAS"` when it
is `None` or the empty string. -/
theorem top_productos_mes_single (anio mes top_n : Int) (sucursal : Option String)
    (h : 1 ≤ top_n) :
    ∃ r : ProdRow, top_productos_mes anio mes top_n sucursal = [r] ∧
      r.Anio = anio ∧ r.Mes = mes ∧ r.ArticuloId = "" ∧
      r.Articulo = "Pendiente de conectar a datos reales" ∧
      r.Unidades = 0 ∧ r.VentaNeta = 0 ∧
      ((sucursal = none ∨ sucursal = some "") → r.Sucursal = "TODAS") ∧
      (∀ s, sucursal = some s → s ≠ "" → r.Sucursal = s) := by
  refine ⟨{ Anio := anio, Mes := mes, Sucursal := pyOr sucursal "TODAS", ArticuloId := "",
            Articulo := "Pendiente de conectar a datos reales", Unidades := 0, VentaNeta := 0 },
          ?_, rfl, rfl, rfl, rfl, rfl, rfl, ?_, ?_⟩
  · unfold top_productos_mes pdHead
    rw [if_pos (by omega)]
    have h1 : (1 : Nat) ≤ top_n.toNat := by omega
    simp [List.take_of_length_le, h1]
  · rintro (rfl | rfl) <;> simp [pyOr]
  · rintro s rfl hs
    simp [pyOr, hs]

/-- C9 witness: concrete instances for a named branch, `None`, and `""`. -/
theorem top_productos_mes_single_witness :
    (∃ r : ProdRow, top_productos_mes 2026 5 10 (some "Centro") = [r] ∧
      r.Anio = 2026 ∧ r.Mes = 5 ∧ r.ArticuloId = "" ∧
      r.Articulo = "Pendiente de conectar a datos reales" ∧
      r.Unidades = 0 ∧ r.VentaNeta = 0 ∧
      ((some "Centro" = (none : Option String) ∨ some "Centro" = some "") → r.Sucursal = "TODAS") ∧
      (∀ s, some "Centro" = some s → s ≠ "" → r.Sucursal = s)) ∧
    (∃ r : ProdRow, top_productos_mes 2026 5 1 (some "") = [r] ∧
      r.Anio = 2026 ∧ r.Mes = 5 ∧ r.ArticuloId = "" ∧
      r.Articulo = "Pendiente de conectar a datos reales" ∧
      r.Unidades = 0 ∧ r.VentaNeta = 0 ∧
      ((some "" = (none : Option String) ∨ some "" = some "") → r.Sucursal = "TODAS") ∧
      (∀ s, some "" = some s → s ≠ "" → r.Sucursal = s)) :=
  ⟨top_productos_mes_single 2026 5 10 (some "Centro") (by decide),
   top_productos_mes_single 2026 5 1 (some "") (by decide)⟩

/-- C4: for any tool name other than the two registered ones, `call_tool`
returns (does not raise) the error payload naming the tool. -/
theorem call_tool_unknown_name (cfg : Config) (db : Db) (name : String) (args : ArgsDict)
    (h1 : name ≠ "ventas_ayer") (h2 : name ≠ "top_productos_mes") :
    call_tool cfg db name args = .ok (.errDict ("Tool no permitida: " ++ name)) := by
  unfold call_tool
  rw [if_neg h1, if_neg h2]

/-- C4 witness: an unregistered name yields the payload, for any arguments. -/
theorem call_tool_unknown_name_witness :
    call_tool cfg0 db0 "drop_tables" [("x", .pint 1)] =
      .ok (.errDict ("Tool no permitida: " ++ "drop_tables")) :=
  call_tool_unknown_name cfg0 db0 "drop_tables" [("x", .pint 1)] (by decide) (by decide)

/-- C10: for the registered names the non-raising payload branch does not
apply: an argument dict missing a required key or carrying an unexpected key
makes `call_tool` raise a `TypeError` instead of returning a payload. -/
theorem call_tool_registered_strict (cfg : Config) (db : Db) (args : ArgsDict) :
    ((args.lookup "sucursal" = none ∨ ∃ p ∈ args, p.1 ≠ "sucursal") →
      ∃ m, call_tool cfg db "ventas_ayer" args = .error (.typeError m)) ∧
    ((args.lookup "anio" = none ∨ args.lookup "mes" = none ∨ args.lookup "top_n" = none ∨
        ∃ p ∈ args, p.1 ∉ (["anio", "mes", "top_n", "sucursal"] : List String)) →
      ∃ m, call_tool cfg db "top_productos_mes" args = .error (.typeError m)) := by
  constructor
  · intro h
    obtain ⟨m, hm⟩ := bind_ventas_bad_args args h
    refine ⟨m, ?_⟩
    unfold call_tool
    rw [if_pos rfl, hm]
  · intro h
    obtain ⟨m, hm⟩ := bind_top_bad_args args h
    refine ⟨m, ?_⟩
    unfold call_tool
    rw [if_neg (by decide), if_pos rfl, hm]

/-- C10 witness: an empty argument dict (missing required keys) raises for
both registered tools. -/
theorem call_tool_registered_strict_witness :
    (∃ m, call_tool cfg0 db0 "ventas_ayer" [] = .error (.typeError m)) ∧
    (∃ m, call_tool cfg0 db0 "top_productos_mes" [] = .error (.typeError m)) :=
  ⟨(call_tool_registered_strict cfg0 db0 []).1 (Or.inl rfl),
   (call_tool_registered_strict cfg0 db0 []).2 (Or.inl rfl)⟩

/-- C6: with any of the four SQL credentials empty, `get_conn` raises the
credentials `RuntimeError` without consulting the connection, and `run_query`
surfaces that same error uncaught for any query passing the guardrail. -/
theorem get_conn_missing_creds (cfg : Config) (db : Db)
    (h : SQL_SERVER cfg = "" ∨ SQL_DATABASE cfg = "" ∨ SQL_USER cfg = "" ∨
      SQL_PASSWORD cfg = "") :
    get_conn cfg db = .error (.runtimeError creds_err_msg) ∧
    ∀ sql params,
      (pyStartsWith (pyToLower (pyStrip sql)) "select" ∨
        pyStartsWith (pyToLower (pyStrip sql)) "exec") →
      run_query cfg db sql params = .error (.runtimeError creds_err_msg) := by
  have hg : get_conn cfg db = .error (.runtimeError creds_err_msg) := by
    unfold get_conn
    rw [if_pos h]
  refine ⟨hg, fun sql params hs => ?_⟩
  unfold run_query
  rw [if_neg (by tauto), hg]

/-- C6 witness: with the empty configuration, `get_conn` raises and
`run_query` on a `SELECT` surfaces the same `RuntimeError`. -/
theorem get_conn_missing_creds_witness :
    get_conn cfg0 db0 = .error (.runtimeError creds_err_msg) ∧
    run_query cfg0 db0 "SELECT 1" none = .error (.runtimeError creds_err_msg) := by
  have h := get_conn_missing_creds cfg0 db0 (Or.inl rfl)
  exact ⟨h.1, h.2 "SELECT 1" none (Or.inl (by decide))⟩

/-- C8: `get_secret` resolves from the secrets store first, then the
environment, then the default (always a string by type); with
`OPENAI_MODEL` set nowhere the model is `"gpt-4.1-mini"`, and with
`SQL_DRIVER` set nowhere the driver is `"ODBC Driver 18 for SQL Server"`. -/
theorem get_secret_resolution (cfg : Config) :
    (∀ key dflt store v, cfg.secretsStore = some store → store key = some v →
      get_secret cfg key dflt = v) ∧
    (∀ key dflt w,
      (cfg.secretsStore = none ∨ ∃ store, cfg.secretsStore = some store ∧ store key = none) →
      cfg.env key = some w → get_secret cfg key dflt = w) ∧
    (∀ key dflt,
      (cfg.secretsStore = none ∨ ∃ store, cfg.secretsStore = some store ∧ store key = none) →
      cfg.env key = none → get_secret cfg key dflt = dflt) ∧
    ((cfg.secretsStore = none ∨
        ∃ store, cfg.secretsStore = some store ∧ store "OPENAI_MODEL" = none) →
      cfg.env "OPENAI_MODEL" = none → OPENAI_MODEL cfg = "gpt-4.1-mini") ∧
    ((cfg.secretsStore = none ∨
        ∃ store, cfg.secretsStore = some store ∧ store "SQL_DRIVER" = none) →
      cfg.env "SQL_DRIVER" = none → SQL_DRIVER cfg = "ODBC Driver 18 for SQL Server") := by
  refine ⟨?_, ?_, ?_, ?_, ?_⟩
  · intro key dflt store v h1 h2
    simp [get_secret, h1, h2]
  · intro key dflt w h henv
    rcases h with h | ⟨store, h1, h2⟩
    · simp [get_secret, h, henv]
    · simp [get_secret, h1, h2, henv]
  · intro key dflt h henv
    exact get_secret_fallback cfg key dflt h henv
  · intro h henv
    exact get_secret_fallback cfg "OPENAI_MODEL" "gpt-4.1-mini" h henv
  · intro h henv
    exact get_secret_fallback cfg "SQL_DRIVER" "ODBC Driver 18 for SQL Server" h henv

/-- C8 witness: with nothing configured, the model and driver defaults are
taken, and a populated environment value is picked up. -/
theorem get_secret_resolution_witness :
    OPENAI_MODEL cfg0 = "gpt-4.1-mini" ∧
    SQL_DRIVER cfg0 = "ODBC Driver 18 for SQL Server" ∧
    get_secret { secretsStore := none, env := fun k => if k = "SQL_USER" then some "sa" else none }
      "SQL_USER" "" = "sa" :=
  ⟨(get_secret_resolution cfg0).2.2.2.1 (Or.inl rfl) rfl,
   (get_secret_resolution cfg0).2.2.2.2 (Or.inl rfl) rfl,
   (get_secret_resolution
      { secretsStore := none, env := fun k => if k = "SQL_USER" then some "sa" else none }).2.1
     "SQL_USER" "" "sa" (Or.inl rfl) (by simp)⟩

/-- C3: with `OPENAI_API_KEY` empty, submitting any prompt appends the user
message and exactly the fixed not-configured assistant reply, and the LLM
endpoint is called zero times (the outcome is the same for every oracle). -/
theorem chatStep_no_api_key (cfg : Config) (db : Db) (oracle : Oracle) (prompt : String)
    (msgs : List Message) (h : OPENAI_API_KEY cfg = "") :
    chatStep cfg db oracle prompt msgs =
      (msgs ++ [{ role := "user", content := prompt, tool_call_id := none },
                { role := "assistant", content := not_configured_msg, tool_call_id := none }],
       0) := by
  simp [chatStep, h]

/-- C3 witness: the empty configuration with a concrete prompt. -/
theorem chatStep_no_api_key_witness :
    chatStep cfg0 db0 oracle0 "hola" initMessages =
      (initMessages ++
        [{ role := "user", content := "hola", tool_call_id := none },
         { role := "assistant", content := not_configured_msg, tool_call_id := none }],
       0) :=
  chatStep_no_api_key cfg0 db0 oracle0 "hola" initMessages rfl

/-- C5: the tool loop never aborts: it appends exactly one tool-role message
per requested call, in order; and when a call's execution raises, the
exception is caught and that call's message content is the JSON serialization
of the error payload built from `str(e)`. -/
theorem tool_errors_serialized (cfg : Config) (db : Db) :
    (∀ msgs tcs, handle_tool_calls cfg db msgs tcs = msgs ++ tcs.map (tool_msg cfg db)) ∧
    (∀ tc e, call_tool cfg db tc.name tc.args = .error e →
      tool_msg cfg db tc =
        { role := "tool",
          content := dumps (.jobj [("error", .jstr (str_of_err e))]),
          tool_call_id := some tc.id }) := by
  refine ⟨fun msgs tcs => handle_tool_calls_eq cfg db msgs tcs, fun tc e h => ?_⟩
  unfold tool_msg
  rw [h]

/-- C5 witness: a failing call (missing required argument) still yields its
serialized error message, and the loop appends it and continues. -/
theorem tool_errors_serialized_witness :
    handle_tool_calls cfg0 db0 [] [⟨"call_1", "ventas_ayer", []⟩] =
      [] ++ [(⟨"call_1", "ventas_ayer", []⟩ : ToolCall)].map (tool_msg cfg0 db0) ∧
    tool_msg cfg0 db0 ⟨"call_1", "ventas_ayer", []⟩ =
      { role := "tool",
        content := dumps (.jobj [("error", .jstr (str_of_err
          (.typeError "ventas_ayer() missing 1 required positional argument: 'sucursal'")))]),
        tool_call_id := some "call_1" } :=
  ⟨(tool_errors_serialized cfg0 db0).1 [] [⟨"call_1", "ventas_ayer", []⟩],
   (tool_errors_serialized cfg0 db0).2 ⟨"call_1", "ventas_ayer", []⟩
     (.typeError "ventas_ayer() missing 1 required positional argument: 'sucursal'") rfl⟩

/-- C7: one pass of the chat handler only appends to the conversation log —
the previous entries survive unchanged as a prefix — and every appended entry
carries one of the four role tags. -/
theorem chatStep_append_only (cfg : Config) (db : Db) (oracle : Oracle) (prompt : String)
    (msgs : List Message) :
    ∃ suffix, (chatStep cfg db oracle prompt msgs).1 = msgs ++ suffix ∧
      ∀ m ∈ suffix, m.role ∈ (["system", "user", "assistant", "tool"] : List String) := by
  by_cases h : OPENAI_API_KEY cfg = ""
  · refine ⟨[{ role := "user", content := prompt, tool_call_id := none },
             { role := "assistant", content := not_configured_msg, tool_call_id := none }],
            ?_, ?_⟩
    · simp [chatStep, h]
    · intro m hm
      simp at hm
      rcases hm with rfl | rfl <;> simp
  · cases htc : (oracle.complete1
        (msgs ++ [{ role := "user", content := prompt, tool_call_id := none }])).tool_calls with
    | nil =>
      refine ⟨[{ role := "user", content := prompt, tool_call_id := none },
               { role := "assistant",
                 content := ((oracle.complete1
                   (msgs ++ [{ role := "user", content := prompt,
                               tool_call_id := none }])).content).getD "",
                 tool_call_id := none }], ?_, ?_⟩
      · simp [chatStep, h, htc]
      · intro m hm
        simp at hm
        rcases hm with rfl | rfl <;> simp
    | cons tc tcs =>
      refine ⟨[{ role := "user", content := prompt, tool_call_id := none }] ++
               (tc :: tcs).map (tool_msg cfg db) ++
               [{ role := "assistant",
                  content := ((oracle.complete2 (handle_tool_calls cfg db
                    (msgs ++ [{ role := "user", content := prompt, tool_call_id := none }])
                    (tc :: tcs))).content).getD "",
                  tool_call_id := none }], ?_, ?_⟩
      · simp [chatStep, h, htc, handle_tool_calls_eq]
      · intro m hm
        simp at hm
        rcases hm with rfl | rfl | ⟨tc', _, rfl⟩ | rfl
        · simp
        · rw [tool_msg_role]
          simp
        · rw [tool_msg_role]
          simp
        · simp

/-- C7 witness: a concrete pass over the seeded log. -/
theorem chatStep_append_only_witness :
    ∃ suffix, (chatStep cfg0 db0 oracle0 "hola" initMessages).1 = initMessages ++ suffix ∧
      ∀ m ∈ suffix, m.role ∈ (["system", "user", "assistant", "tool"] : List String) :=
  chatStep_append_only cfg0 db0 oracle0 "hola" initMessages
